import Mathlib

/-!
Verification of the LegalLens application against its specification.

The development shallowly embeds the TypeScript source:
* `types.ts` (data model) as Lean structures,
* `services/fileProcessor.ts` (`extractTextFromFile`) with the PDF / OCR
  libraries abstracted as an environment of extraction outcomes,
* `services/geminiService.ts` (`analyzeDocument`, `rewriteClause`, `initChat`,
  `sendMessageToChat`) with the hosted model abstracted as response oracles,
* `components/FileUpload.tsx` (`processFile`), `components/ChatWindow.tsx`
  (`handleSend`), `components/ClausePanel.tsx` (`toggleClause`),
* `App.tsx` (`handleDocumentLoaded`, `handleRewriteUpdate`, `handleReset`,
  `handleExportPDF`).

JavaScript string primitives used by the source (`substring`, `includes`,
`trim`, `replace(/\s/g, "")`, truthiness of strings) are modelled explicitly
below.  Strings are sequences of code points; JavaScript measures UTF-16
units, which agrees on all BMP text.
-/

namespace LegalLens

/-! ### JavaScript string primitives -/

/-- The character class of the JavaScript regular expression `\s`
(whitespace, as used in `fullText.replace(/\s/g, '')` and `String.trim`). -/
def isJsWhitespace (c : Char) : Bool :=
  c == '\t' || c == '\n' || c == '\x0b' || c == '\x0c' || c == '\r' || c == ' ' ||
  c == '\xa0' || c == '\u1680' || ('\u2000' ≤ c && c ≤ '\u200a') ||
  c == '\u2028' || c == '\u2029' || c == '\u202f' || c == '\u205f' ||
  c == '\u3000' || c == '\ufeff'

/-- `s.replace(/\s/g, '')`: remove every whitespace character. -/
def stripJsWhitespace (s : String) : String :=
  ⟨s.data.filter (fun c => !isJsWhitespace c)⟩

/-- JavaScript `String.prototype.trim`. -/
def jsTrim (s : String) : String :=
  ⟨((s.data.dropWhile isJsWhitespace).reverse.dropWhile isJsWhitespace).reverse⟩

/-- JavaScript `s.substring(start, stop)` for non-negative indices:
both indices are clamped to the length and swapped when out of order. -/
def jsSubstring (s : String) (start stop : Nat) : String :=
  let a := min start s.length
  let b := min stop s.length
  ⟨(s.data.take (max a b)).drop (min a b)⟩

/-- Does `pat` occur at the head of `s`? (helper for `jsIncludes`). -/
def leadingMatch : List Char → List Char → Bool
  | _, [] => true
  | [], _ :: _ => false
  | c :: cs, p :: ps => c == p && leadingMatch cs ps

/-- Does `pat` occur anywhere in `s`? (helper for `jsIncludes`). -/
def listIncludes : List Char → List Char → Bool
  | [], pat => leadingMatch [] pat
  | c :: rest, pat => leadingMatch (c :: rest) pat || listIncludes rest pat

/-- JavaScript `s.includes(pat)`. -/
def jsIncludes (s pat : String) : Bool :=
  listIncludes s.data pat.data

/-- JavaScript `s.endsWith(p)` (used for the `.md` / `.txt` file-name tests). -/
def strEndsWith (s p : String) : Bool :=
  leadingMatch s.data.reverse p.data.reverse

/-- JavaScript `s.startsWith(p)` (used for the `image/` MIME test). -/
def strStartsWith (s p : String) : Bool :=
  leadingMatch s.data p.data

/-- Truthiness of `process.env.API_KEY` (`undefined` and `""` are falsy). -/
def truthy : Option String → Bool
  | none => false
  | some s => !(s == "")

/-! ### Data model (`types.ts`) -/

inductive RiskLevel where
  | low
  | medium
  | high
  deriving DecidableEq

structure Clause where
  id : Int
  title : String
  text : String
  riskLevel : RiskLevel
  explanation : String
  indianLawReference : String
  suggestion : Option String := none
  deriving DecidableEq

inductive Domain where
  | property
  | employment
  | financial
  | commercial
  | consumer
  | it
  | other
  deriving DecidableEq

structure AnalysisResult where
  summary : String
  domain : Domain
  clauses : List Clause
  overallRiskScore : Int
  redFlags : List String
  nextSteps : List String
  deriving DecidableEq

inductive ChatRole where
  | user
  | model
  deriving DecidableEq

structure ChatMessage where
  id : String
  role : ChatRole
  text : String
  timestamp : Nat
  deriving DecidableEq

/-! ### Gemini service (`services/geminiService.ts`)

The hosted model is abstracted as oracles: `generate` maps a prompt to
`response.text` (`none` models a thrown request error), `parseResponse`
models `JSON.parse` of the schema-constrained reply (`none` models a parse
failure), `send` models `chatSession.sendMessage`. -/

inductive GeminiError where
  | apiKeyMissing       -- "API Key is missing."
  | requestFailed       -- the request to the model threw
  | noResponse          -- "No response from AI"
  | parseFailed         -- JSON.parse threw on the reply
  | chatNotInitialized  -- "Chat session not initialized"
  deriving DecidableEq

def analysisPromptHead : String :=
  "\n    You are LegalLens India, an expert Indian legal assistant. \n    Analyze the following legal document text. \n    Identify key clauses, assess their risk based on Indian Law (IPC, Contract Act, Companies Act, etc.), \n    and provide a structured analysis.\n    \n    Also provide 3-5 specific \"Next Steps\" regarding:\n    1. Is Notarization or Registration mandatory? (e.g., Rent agreements > 11 months).\n    2. Stamp duty implications.\n    3. Recommended dispute resolution method (Arbitration vs Court).\n    \n    Document Text:\n    \"\"\""

def analysisPromptTail : String :=
  "\"\"\" \n    \n    Ensure strict adherence to the output JSON schema.\n  "

/-- The full analysis prompt: the document text is embedded through
`text.substring(0, 30000)`. -/
def analysisPrompt (text : String) : String :=
  analysisPromptHead ++ jsSubstring text 0 30000 ++ analysisPromptTail

/-- Handling of the analysis reply: absent / empty / unparsable replies fail. -/
def analyzeResponse (resp : Option String)
    (parseResponse : String → Option AnalysisResult) :
    Except GeminiError AnalysisResult :=
  match resp with
  | none => .error .requestFailed
  | some jsonText =>
    if jsonText == "" then .error .noResponse
    else
      match parseResponse jsonText with
      | none => .error .parseFailed
      | some r => .ok r

/-- `analyzeDocument`: the first component is the result, the second the
list of prompts actually submitted to the model. -/
def analyzeDocument (apiKey : Option String) (generate : String → Option String)
    (parseResponse : String → Option AnalysisResult) (text : String) :
    Except GeminiError AnalysisResult × List String :=
  if !truthy apiKey then (.error .apiKeyMissing, [])
  else
    let prompt := analysisPrompt text
    (analyzeResponse (generate prompt) parseResponse, [prompt])

def rewritePromptA : String :=
  "\n    Rewrite the following legal clause to be safer for the receiving party (client), \n    fairer, and strictly compliant with Indian Law. \n    Keep the language professional but clearer.\n    \n    Original Clause: \""

def rewritePromptB : String :=
  "\"\n    \n    Context/Domain: "

def rewritePromptC : String :=
  "\n    \n    Return ONLY the rewritten clause text.\n  "

/-- `rewriteClause`: empty reply text falls back to a fixed string. -/
def rewriteClause (apiKey : Option String) (generate : String → Option String)
    (clauseText context : String) : Except GeminiError String :=
  if !truthy apiKey then .error .apiKeyMissing
  else
    match generate (rewritePromptA ++ clauseText ++ rewritePromptB ++ context ++ rewritePromptC) with
    | none => .error .requestFailed
    | some t => .ok (if t == "" then "Could not generate rewrite." else t)

/-- The module-level chat session: its system instruction embeds
`docContext.substring(0, 20000)`. -/
structure ChatSession where
  systemContext : String
  deriving DecidableEq

def chatSystemHead : String :=
  "You are LegalLens India. You are chatting with a user about a specific legal document they uploaded. \n      Here is the document context: \"\"\""

def chatSystemTail : String :=
  "\"\"\".\n      Answer questions based on Indian Law. If a query is outside legal scope, politely decline.\n      Keep answers concise and helpful."

/-- `initChat`: with a falsy API key it returns immediately, leaving the
module-level session exactly as it was; otherwise it replaces the session. -/
def initChat (apiKey : Option String) (docContext : String)
    (chatSession : Option ChatSession) : Option ChatSession :=
  if !truthy apiKey then chatSession
  else some ⟨chatSystemHead ++ jsSubstring docContext 0 20000 ++ chatSystemTail⟩

/-- `sendMessageToChat`: fails when no session exists; empty reply text
falls back to a fixed string. -/
def sendMessageToChat (chatSession : Option ChatSession)
    (send : ChatSession → String → Option String) (message : String) :
    Except GeminiError String :=
  match chatSession with
  | none => .error .chatNotInitialized
  | some sess =>
    match send sess message with
    | none => .error .requestFailed
    | some t => .ok (if t == "" then "I didn\x27t understand that." else t)

/-! ### File processor (`services/fileProcessor.ts`)

The PDF text layer, the text reader and the OCR engine are abstracted as an
environment: `none` models a thrown library / IO error. -/

structure UploadedFile where
  name : String
  type : String
  deriving DecidableEq

inductive ExtractError where
  | readError        -- "Failed to read text file"
  | scannedDocument  -- "Could not extract text from PDF. ..."
  | ocrError         -- "OCR processing failed."
  | unsupportedType  -- "Unsupported file type. ..."
  deriving DecidableEq

def extractErrorMessage : ExtractError → String
  | .readError => "Failed to read text file"
  | .scannedDocument => "Could not extract text from PDF. It might be a scanned image or password protected."
  | .ocrError => "OCR processing failed."
  | .unsupportedType => "Unsupported file type. Please use .txt, .pdf, .jpg, or .png."

structure ExtractEnv where
  readTextResult : Option String
  pdfPages : Option (List String)
  ocrResult : Option String

/-- One step of the `fullText +=` loop: pages are numbered from 1. -/
def pageBlock (i : Nat) (pageText : String) : String :=
  "--- Page " ++ toString i ++ " ---\n" ++ pageText ++ "\n\n"

/-- The concatenated text of all PDF pages, with per-page delimiters. -/
def buildFullText (pages : List String) : String :=
  String.join (pages.enum.map (fun p => pageBlock (p.1 + 1) p.2))

/-- The PDF branch: a thrown library error and the scanned-image check both
reject with the same message (spec: `ScannedDocumentError`). -/
def extractPdf (pdfPages : Option (List String)) : Except ExtractError String :=
  match pdfPages with
  | none => .error .scannedDocument
  | some pages =>
    let fullText := buildFullText pages
    if (stripJsWhitespace fullText).length < 50 then .error .scannedDocument
    else .ok fullText

def extractTextFromFile (f : UploadedFile) (env : ExtractEnv) :
    Except ExtractError String :=
  if f.type == "text/plain" || strEndsWith f.name ".md" || strEndsWith f.name ".txt" then
    match env.readTextResult with
    | some t => .ok t
    | none => .error .readError
  else if f.type == "application/pdf" then
    extractPdf env.pdfPages
  else if strStartsWith f.type "image/" then
    match env.ocrResult with
    | some t => .ok t
    | none => .error .ocrError
  else .error .unsupportedType

/-! ### File upload component (`components/FileUpload.tsx`) -/

inductive UploadMode where
  | upload
  | paste
  deriving DecidableEq

structure UploadState where
  dragActive : Bool
  manualText : String
  mode : UploadMode
  isProcessing : Bool
  deriving DecidableEq

/-- Observable effects of `processFile`: a call of the `onDataLoaded`
callback, or an `alert`. -/
inductive UploadEvent where
  | dataLoaded (text fileName : String)
  | alerted (message : String)
  deriving DecidableEq

def pastePlaceholder : String :=
  "Could not auto-parse PDF in this demo. Please paste content here."

def initialUploadState : UploadState :=
  { dragActive := false, manualText := "", mode := .upload, isProcessing := false }

/-- `processFile`: extraction result containing "Unable to extract" switches
to paste mode without delivering the text; otherwise `onDataLoaded` fires;
errors are alerted. `isProcessing` is set and finally cleared. -/
def processFile (s : UploadState) (f : UploadedFile) (env : ExtractEnv) :
    UploadState × List UploadEvent :=
  match extractTextFromFile f env with
  | .ok text =>
    if jsIncludes text "Unable to extract" then
      ({ s with mode := .paste, manualText := pastePlaceholder, isProcessing := false }, [])
    else
      ({ s with isProcessing := false }, [.dataLoaded text f.name])
  | .error e =>
      ({ s with isProcessing := false }, [.alerted (extractErrorMessage e)])

/-! ### Chat window (`components/ChatWindow.tsx`) -/

def chatGreeting : ChatMessage :=
  { id := "1", role := .model,
    text := "Hello! I have analyzed your document. I can explain specific clauses, risks, or Indian legal implications. What would you like to know?",
    timestamp := 0 }

def chatApology : String := "Sorry, I encountered an error connecting to the AI."

/-- `handleSend`: `now` models `Date.now()`, `response` the settled outcome of
`sendMessageToChat` (`none` models a thrown error). The user message is
appended first, then the model (or apology) message. -/
def handleSend (messages : List ChatMessage) (input : String) (now : Nat)
    (response : Option String) : List ChatMessage :=
  if jsTrim input == "" then messages
  else
    let userMsg : ChatMessage := { id := toString now, role := .user, text := input, timestamp := now }
    match response with
    | some t =>
        (messages ++ [userMsg]) ++ [{ id := toString (now + 1), role := .model, text := t, timestamp := now }]
    | none =>
        (messages ++ [userMsg]) ++ [{ id := "err", role := .model, text := chatApology, timestamp := now }]

/-! ### Clause panel (`components/ClausePanel.tsx`) -/

/-- `toggleClause` over the `expandedClauseId` state. -/
def toggleClause (expandedClauseId : Option Int) (id : Int) : Option Int :=
  if expandedClauseId = some id then none else some id

/-! ### Application shell (`App.tsx`) -/

inductive Tab where
  | chat
  | analysis
  deriving DecidableEq

/-- Top-level React state of `App`. The `rewrites` record is modelled by its
lookup function (`Record<number, string>`). -/
structure AppState where
  documentText : Option String
  docName : String
  analysis : Option AnalysisResult
  isLoading : Bool
  activeTab : Tab
  rewrites : Int → Option String

def initialState : AppState :=
  { documentText := none, docName := "", analysis := none, isLoading := false,
    activeTab := .chat, rewrites := fun _ => none }

/-- `{ ...prev, [id]: text }` on a numeric record, observed through lookup. -/
def recordSet (m : Int → Option String) (k : Int) (v : String) :
    Int → Option String :=
  fun q => if q = k then some v else m q

def handleRewriteUpdate (s : AppState) (id : Int) (text : String) : AppState :=
  { s with rewrites := recordSet s.rewrites id text }

def handleReset (s : AppState) : AppState :=
  { s with
    documentText := none
    analysis := none
    rewrites := fun _ => none
    activeTab := .chat }

/-- `handleDocumentLoaded`: stores text and name, clears rewrites, awaits
`analyzeDocument`; on success stores the analysis and initialises the chat,
on failure resets only `documentText`. Returns the new state and the
(possibly replaced) chat session. -/
def handleDocumentLoaded (s : AppState) (session : Option ChatSession)
    (apiKey : Option String) (generate : String → Option String)
    (parseResponse : String → Option AnalysisResult)
    (text fileName : String) : AppState × Option ChatSession :=
  let s1 : AppState :=
    { s with
      documentText := some text
      docName := fileName
      isLoading := true
      rewrites := fun _ => none }
  match (analyzeDocument apiKey generate parseResponse text).1 with
  | .ok r => ({ s1 with analysis := some r, isLoading := false }, initChat apiKey text session)
  | .error _ => ({ s1 with documentText := none, isLoading := false }, session)

/-! ### PDF export (`handleExportPDF` in `App.tsx`)

The export is modelled at the level of document sections, in the order the
source emits them; conditional sections reproduce the source's guards. -/

structure ClauseBlock where
  title : String
  riskLevel : RiskLevel
  text : String
  explanation : String
  indianLawReference : String
  rewriteText : Option String
  deriving DecidableEq

/-- One clause block; `if (rewrites[clause.id])` is JS-truthy, so an empty
cached rewrite is not rendered. -/
def clauseBlockOf (rewrites : Int → Option String) (c : Clause) : ClauseBlock :=
  { title := c.title, riskLevel := c.riskLevel, text := c.text,
    explanation := c.explanation, indianLawReference := c.indianLawReference,
    rewriteText :=
      match rewrites c.id with
      | some t => if t == "" then none else some t
      | none => none }

inductive PdfSection where
  | headerBanner (title : String)
  | metaInfo (docName : String) (domain : Domain) (score : Int)
  | summaryBox (summary : String)
  | nextStepsSec (heading : String) (steps : List String)
  | redFlagsSec (heading : String) (flags : List String)
  | clausesSec (heading : String) (blocks : List ClauseBlock)
  deriving DecidableEq

def exportSections (a : AnalysisResult) (rewrites : Int → Option String)
    (docName : String) : List PdfSection :=
  [PdfSection.headerBanner "LegalLens India Analysis",
   PdfSection.metaInfo docName a.domain a.overallRiskScore,
   PdfSection.summaryBox a.summary]
  ++ (if 0 < a.nextSteps.length then
        [PdfSection.nextStepsSec "Recommended Next Steps" a.nextSteps] else [])
  ++ (if 0 < a.redFlags.length then
        [PdfSection.redFlagsSec "Critical Red Flags" a.redFlags] else [])
  ++ [PdfSection.clausesSec "Detailed Clause Analysis" (a.clauses.map (clauseBlockOf rewrites))]

/-- `handleExportPDF`: a no-op (`none`) when no analysis is present. -/
def handleExportPDF (analysis : Option AnalysisResult)
    (rewrites : Int → Option String) (docName : String) :
    Option (List PdfSection) :=
  match analysis with
  | none => none
  | some a => some (exportSections a rewrites docName)

def sectionIsRedFlags : PdfSection → Bool
  | .redFlagsSec _ _ => true
  | _ => false

def sectionIsNextSteps : PdfSection → Bool
  | .nextStepsSec _ _ => true
  | _ => false

/-! ### Concrete oracles and states used by witnesses -/

def noGenerate : String → Option String := fun _ => none

def noParse : String → Option AnalysisResult := fun _ => none

def sampleLoadedState : AppState :=
  { initialState with documentText := some "Body" }

def sampleChat : List ChatMessage := [chatGreeting]

/-! ### Helper lemmas -/

theorem take_min_length (l : List Char) (n : Nat) :
    l.take (min n l.length) = l.take n := by
  rcases Nat.le_total n l.length with h | h
  · rw [Nat.min_eq_left h]
  · rw [Nat.min_eq_right h, List.take_length, List.take_of_length_le h]

theorem jsSubstring_data (s : String) (n : Nat) :
    (jsSubstring s 0 n).data = s.data.take n := by
  show (s.data.take
      (max (min 0 s.length) (min n s.length))).drop
      (min (min 0 s.length) (min n s.length)) = s.data.take n
  rw [Nat.zero_min, Nat.zero_max, Nat.zero_min, List.drop_zero]
  exact take_min_length s.data n

/-! ### Claim theorems -/

/-- C1 counterexample: with the API key absent, `initChat` does not fail with
an error — it silently does nothing, leaving the module-level chat session
exactly as it was (whether a previous session exists or not). -/
theorem c1_initChat_silent_counterexample :
    initChat none "Document body" (some ⟨"old session context"⟩)
      = some ⟨"old session context"⟩ ∧
    initChat none "Document body" none = none :=
  ⟨rfl, rfl⟩

/-- C1 amended: with the API key absent, `analyzeDocument` and `rewriteClause`
fail with the missing-key error and submit nothing to the model, and
`sendMessageToChat` after a key-less `initChat` (from no prior session) fails
with the uninitialised-session error; `initChat` itself, however, silently
returns with the session unchanged instead of failing. -/
theorem c1_missing_key_amended (generate : String → Option String)
    (parseResponse : String → Option AnalysisResult)
    (send : ChatSession → String → Option String)
    (text clauseText context docContext message : String)
    (session : Option ChatSession) :
    (analyzeDocument none generate parseResponse text).1
      = .error .apiKeyMissing ∧
    (analyzeDocument none generate parseResponse text).2 = [] ∧
    rewriteClause none generate clauseText context = .error .apiKeyMissing ∧
    initChat none docContext session = session ∧
    sendMessageToChat (initChat none docContext none) send message
      = .error .chatNotInitialized :=
  ⟨rfl, rfl, rfl, rfl, rfl⟩

/-- C2: for a PDF file whose concatenated extracted text, stripped of all
whitespace, is shorter than 50 characters, extraction fails with the
scanned-document error and never resolves with the short text. -/
theorem c2_short_pdf_rejected (f : UploadedFile) (env : ExtractEnv)
    (pages : List String)
    (htype : f.type = "application/pdf")
    (hmd : strEndsWith f.name ".md" = false)
    (htxt : strEndsWith f.name ".txt" = false)
    (hpages : env.pdfPages = some pages)
    (hshort : (stripJsWhitespace (buildFullText pages)).length < 50) :
    extractTextFromFile f env = .error .scannedDocument ∧
    ∀ t, extractTextFromFile f env ≠ .ok t := by
  have hres : extractTextFromFile f env = .error .scannedDocument := by
    simp [extractTextFromFile, htype, hmd, htxt, extractPdf, hpages, hshort]
  exact ⟨hres, fun t h => by rw [hres] at h; exact Except.noConfusion h⟩

/-- C2 witness: a one-page PDF with an empty text layer is rejected. -/
theorem c2_short_pdf_rejected_witness :
    extractTextFromFile ⟨"scan.pdf", "application/pdf"⟩ ⟨none, some [""], none⟩
      = .error .scannedDocument :=
  (c2_short_pdf_rejected ⟨"scan.pdf", "application/pdf"⟩ ⟨none, some [""], none⟩
    [""] rfl (by decide) (by decide) rfl (by decide)).1

/-- C3 counterexample: after a failed analysis of a first upload, the
application state does not equal the pre-upload state — the uploaded file's
name is retained in `docName`. -/
theorem c3_name_retained_counterexample :
    (handleDocumentLoaded initialState none none noGenerate noParse
      "Some contract text" "contract.pdf").1.docName = "contract.pdf" ∧
    initialState.docName = "" ∧
    ¬ ((handleDocumentLoaded initialState none none noGenerate noParse
      "Some contract text" "contract.pdf").1.docName = initialState.docName) :=
  ⟨rfl, rfl, by decide⟩

/-- C3 amended: when the analysis call fails, `handleDocumentLoaded` clears
the document text, leaves the rewrite record empty and ends loading, but the
document name is set to the uploaded file's name (not restored), the
analysis field is left unchanged rather than reset, and the chat session is
untouched. -/
theorem c3_failed_analysis_amended (s : AppState) (session : Option ChatSession)
    (apiKey : Option String) (generate : String → Option String)
    (parseResponse : String → Option AnalysisResult)
    (text fileName : String) (e : GeminiError)
    (hfail : (analyzeDocument apiKey generate parseResponse text).1 = .error e) :
    (handleDocumentLoaded s session apiKey generate parseResponse text fileName).1.documentText = none ∧
    (handleDocumentLoaded s session apiKey generate parseResponse text fileName).1.docName = fileName ∧
    (handleDocumentLoaded s session apiKey generate parseResponse text fileName).1.analysis = s.analysis ∧
    (∀ k, (handleDocumentLoaded s session apiKey generate parseResponse text fileName).1.rewrites k = none) ∧
    (handleDocumentLoaded s session apiKey generate parseResponse text fileName).1.isLoading = false ∧
    (handleDocumentLoaded s session apiKey generate parseResponse text fileName).2 = session := by
  simp [handleDocumentLoaded, hfail]

/-- C3 amended witness: a concrete failed upload (missing API key). -/
theorem c3_failed_analysis_amended_witness :
    (handleDocumentLoaded initialState none none noGenerate noParse
      "Some contract text" "contract.pdf").1.documentText = none ∧
    (handleDocumentLoaded initialState none none noGenerate noParse
      "Some contract text" "contract.pdf").1.analysis = initialState.analysis ∧
    (handleDocumentLoaded initialState none none noGenerate noParse
      "Some contract text" "contract.pdf").1.rewrites 7 = none := by
  have h := c3_failed_analysis_amended initialState none none noGenerate noParse
    "Some contract text" "contract.pdf" GeminiError.apiKeyMissing rfl
  exact ⟨h.1, h.2.2.1, h.2.2.2.1 7⟩

/-- C4: from any state with a loaded document, `handleReset` clears the
document text, the analysis result and every cached rewrite, and sets the
active tab back to the chat tab. -/
theorem c4_reset_clears_state (s : AppState)
    (_hloaded : s.documentText.isSome = true) :
    (handleReset s).documentText = none ∧
    (handleReset s).analysis = none ∧
    (∀ k, (handleReset s).rewrites k = none) ∧
    (handleReset s).activeTab = Tab.chat :=
  ⟨rfl, rfl, fun _ => rfl, rfl⟩

/-- C4 witness: reset of a concrete loaded state. -/
theorem c4_reset_clears_state_witness :
    (handleReset sampleLoadedState).documentText = none ∧
    (handleReset sampleLoadedState).analysis = none ∧
    (handleReset sampleLoadedState).rewrites 3 = none ∧
    (handleReset sampleLoadedState).activeTab = Tab.chat := by
  have h := c4_reset_clears_state sampleLoadedState rfl
  exact ⟨h.1, h.2.1, h.2.2.1 3, h.2.2.2⟩

/-- C5: recording a rewrite `(k, t)` makes exactly `t` retrievable under key
`k` and leaves every other key's entry unchanged. -/
theorem c5_rewrite_update_frame (s : AppState) (k : Int) (t : String) :
    (handleRewriteUpdate s k t).rewrites k = some t ∧
    ∀ q : Int, q ≠ k → (handleRewriteUpdate s k t).rewrites q = s.rewrites q := by
  constructor
  · simp [handleRewriteUpdate, recordSet]
  · intro q hq
    simp [handleRewriteUpdate, recordSet, hq]

/-- C5 witness: clause id 7 receives "Revised clause."; id 3 is unchanged. -/
theorem c5_rewrite_update_frame_witness :
    (handleRewriteUpdate initialState 7 "Revised clause.").rewrites 7
      = some "Revised clause." ∧
    (handleRewriteUpdate initialState 7 "Revised clause.").rewrites 3
      = initialState.rewrites 3 :=
  ⟨(c5_rewrite_update_frame initialState 7 "Revised clause.").1,
   (c5_rewrite_update_frame initialState 7 "Revised clause.").2 3 (by decide)⟩

/-- C6: the PDF export renders the red-flags section (with its heading) iff
the red-flag list is non-empty, and the next-steps section (with its
heading) iff the next-steps list is non-empty. -/
theorem c6_export_sections_iff (a : AnalysisResult)
    (rewrites : Int → Option String) (docName : String) :
    (((exportSections a rewrites docName).any sectionIsRedFlags) = true
      ↔ a.redFlags ≠ []) ∧
    (((exportSections a rewrites docName).any sectionIsNextSteps) = true
      ↔ a.nextSteps ≠ []) := by
  cases hn : a.nextSteps <;> cases hr : a.redFlags <;>
    simp [exportSections, hn, hr, sectionIsRedFlags, sectionIsNextSteps]

/-- C7: clause expansion is exclusive and toggling — selecting `b` while `a`
is expanded leaves exactly `b` expanded, re-selecting the expanded clause
collapses it, and at most one clause is ever expanded. -/
theorem c7_toggle_exclusive (a b : Int) (hab : a ≠ b) :
    toggleClause (some a) b = some b ∧
    toggleClause (some a) a = none ∧
    (∀ (s : Option Int) (id c d : Int),
      toggleClause s id = some c → toggleClause s id = some d → c = d) := by
  refine ⟨?_, ?_, ?_⟩
  · simp [toggleClause, hab]
  · simp [toggleClause]
  · intro s id c d h1 h2
    exact Option.some_inj.mp (h1.symm.trans h2)

/-- C7 witness: toggling between clauses 1 and 2. -/
theorem c7_toggle_exclusive_witness :
    toggleClause (some 1) 2 = some 2 ∧ toggleClause (some 1) 1 = none :=
  ⟨(c7_toggle_exclusive 1 2 (by decide)).1, (c7_toggle_exclusive 1 2 (by decide)).2.1⟩

/-- C8: with a usable API key, `analyzeDocument` submits exactly one prompt,
whose embedded document text is exactly the first 30,000 characters of the
input (the whole input when shorter), never more. -/
theorem c8_analyze_truncates (apiKey : Option String)
    (generate : String → Option String)
    (parseResponse : String → Option AnalysisResult) (text : String)
    (hkey : truthy apiKey = true) :
    (analyzeDocument apiKey generate parseResponse text).2
      = [analysisPromptHead ++ jsSubstring text 0 30000 ++ analysisPromptTail] ∧
    (jsSubstring text 0 30000).data = text.data.take 30000 ∧
    (jsSubstring text 0 30000).length ≤ 30000 ∧
    (text.length ≤ 30000 → jsSubstring text 0 30000 = text) := by
  refine ⟨?_, jsSubstring_data text 30000, ?_, ?_⟩
  · simp [analyzeDocument, hkey, analysisPrompt]
  · show (jsSubstring text 0 30000).data.length ≤ 30000
    rw [jsSubstring_data text 30000, List.length_take]
    exact Nat.min_le_left _ _
  · intro hlen
    have hdata : (jsSubstring text 0 30000).data = text.data :=
      (jsSubstring_data text 30000).trans (List.take_of_length_le hlen)
    exact congrArg String.mk hdata

/-- C8 witness: a short document is submitted whole. -/
theorem c8_analyze_truncates_witness :
    (analyzeDocument (some "key") noGenerate noParse "Short document.").2
      = [analysisPromptHead ++ jsSubstring "Short document." 0 30000 ++ analysisPromptTail] ∧
    jsSubstring "Short document." 0 30000 = "Short document." := by
  have h := c8_analyze_truncates (some "key") noGenerate noParse "Short document." rfl
  exact ⟨h.1, h.2.2.2 (by decide)⟩

/-- C9: when extraction succeeds with text containing "Unable to extract",
`processFile` never delivers the text (no `onDataLoaded` call, no alert); it
switches the UI to paste mode with the placeholder message. -/
theorem c9_unable_phrase_dropped (s : UploadState) (f : UploadedFile)
    (env : ExtractEnv) (text : String)
    (hok : extractTextFromFile f env = .ok text)
    (hphrase : jsIncludes text "Unable to extract" = true) :
    (processFile s f env).2 = [] ∧
    (processFile s f env).1.mode = UploadMode.paste ∧
    (processFile s f env).1.manualText = pastePlaceholder := by
  simp [processFile, hok, hphrase]

/-- C9 witness: a text file whose content contains the phrase is dropped. -/
theorem c9_unable_phrase_dropped_witness :
    (processFile initialUploadState ⟨"a.txt", "text/plain"⟩
      ⟨some "Unable to extract this document", none, none⟩).2 = [] ∧
    (processFile initialUploadState ⟨"a.txt", "text/plain"⟩
      ⟨some "Unable to extract this document", none, none⟩).1.mode = UploadMode.paste ∧
    (processFile initialUploadState ⟨"a.txt", "text/plain"⟩
      ⟨some "Unable to extract this document", none, none⟩).1.manualText = pastePlaceholder := by
  have h := c9_unable_phrase_dropped initialUploadState ⟨"a.txt", "text/plain"⟩
    ⟨some "Unable to extract this document", none, none⟩
    "Unable to extract this document" rfl (by decide)
  exact ⟨h.1, h.2.1, h.2.2⟩

/-- C10: a failed AI turn appends the apology message with the constant id
"err" (after the user message whose id is the current time), a successful
turn appends messages whose ids derive from the current time, and after two
failed turns the transcript's ids are no longer pairwise distinct. -/
theorem c10_err_id_collision (msgs : List ChatMessage) (input1 input2 : String)
    (now1 now2 : Nat)
    (h1 : (jsTrim input1 == "") = false)
    (h2 : (jsTrim input2 == "") = false) :
    handleSend msgs input1 now1 none
      = (msgs ++ [⟨toString now1, .user, input1, now1⟩])
        ++ [⟨"err", .model, chatApology, now1⟩] ∧
    (∀ t, handleSend msgs input1 now1 (some t)
      = (msgs ++ [⟨toString now1, .user, input1, now1⟩])
        ++ [⟨toString (now1 + 1), .model, t, now1⟩]) ∧
    ¬ (((handleSend (handleSend msgs input1 now1 none) input2 now2 none).map
        ChatMessage.id).Nodup) := by
  have k1 : handleSend msgs input1 now1 none
      = (msgs ++ [⟨toString now1, .user, input1, now1⟩])
        ++ [⟨"err", .model, chatApology, now1⟩] := by
    simp [handleSend, h1]
  have k2 : ∀ t, handleSend msgs input1 now1 (some t)
      = (msgs ++ [⟨toString now1, .user, input1, now1⟩])
        ++ [⟨toString (now1 + 1), .model, t, now1⟩] := by
    intro t
    simp [handleSend, h1]
  have kgen : ∀ (ms : List ChatMessage), handleSend ms input2 now2 none
      = (ms ++ [⟨toString now2, .user, input2, now2⟩])
        ++ [⟨"err", .model, chatApology, now2⟩] := by
    intro ms
    simp [handleSend, h2]
  refine ⟨k1, k2, ?_⟩
  rw [k1, kgen]
  intro hn
  rw [List.map_append] at hn
  have hdisj := (List.nodup_append.mp hn).2.2
  have e1mem : (⟨"err", .model, chatApology, now1⟩ : ChatMessage)
      ∈ ((msgs ++ [⟨toString now1, .user, input1, now1⟩])
        ++ [⟨"err", .model, chatApology, now1⟩])
        ++ [⟨toString now2, .user, input2, now2⟩] := by
    simp
  have hmem1 := List.mem_map_of_mem ChatMessage.id e1mem
  have hmem2 := List.mem_map_of_mem ChatMessage.id
    (List.mem_singleton_self (⟨"err", .model, chatApology, now2⟩ : ChatMessage))
  exact hdisj hmem1 hmem2

/-- C10 witness: two failed turns on the seeded transcript give duplicate
ids. -/
theorem c10_err_id_collision_witness :
    ¬ (((handleSend (handleSend sampleChat "What is clause 2?" 100 none)
        "And the penalties?" 200 none).map ChatMessage.id).Nodup) :=
  (c10_err_id_collision sampleChat "What is clause 2?" "And the penalties?"
    100 200 (by decide) (by decide)).2.2

end LegalLens
